import Mathlib

/-! Verification development for the TallyFinane AI-service Orchestrator
(`ai-service_TallyFinane/orchestrator.py`).  The deterministic parts of the
orchestrator are embedded shallowly: the mood calculator, the bounded-retry
completion wrapper, the Phase A post-processing of the parsed LLM response,
the Phase B deterministic post-processing, the opening extractor and the
Tier-2 conversation-summary compressor.  Python strings are `List Char` /
`String`, JSON values are an inductive `JVal`, machine floats for budget
fractions are modelled as exact rationals, and Python exceptions are
`Except` values. -/

namespace Tally

/-- The six-entry mood ladder (orchestrator.py line 25). -/
def MOOD_LADDER : List String := ["frustrated", "tired", "normal", "hopeful", "happy", "proud"]

/-- The legacy mood alias table from `calculate_final_mood` (lines 61-69):
an association list mirroring the Python dict literal. -/
def mood_mapping : List (String × String) :=
  [("normal", "normal"), ("happy", "happy"), ("disappointed", "tired"), ("tired", "tired"),
   ("hopeful", "hopeful"), ("frustrated", "frustrated"), ("proud", "proud")]

/-- Python `mood_mapping.get(base_mood, "normal")` (line 70). -/
def normalizedMood (base_mood : String) : String :=
  match mood_mapping.find? (fun p => p.1 == base_mood) with
  | some p => p.2
  | none => "normal"

/-- Python `MOOD_LADDER.index(normalized_mood) if normalized_mood in MOOD_LADDER else 2`
(line 71). -/
def ladderIndex (m : String) : Nat :=
  if MOOD_LADDER.contains m then MOOD_LADDER.indexOf m else 2

/-- Condition `budget_percent is not None and budget_percent > 0.95` (line 78). -/
def budgetOverLimit (budget_percent : Option ℚ) : Bool :=
  match budget_percent with
  | some bp => decide (bp > 95/100)
  | none => false

/-- Condition `budget_percent is None or budget_percent < 0.5` (line 80). -/
def budgetAbsentOrLow (budget_percent : Option ℚ) : Bool :=
  match budget_percent with
  | some bp => decide (bp < 1/2)
  | none => true

/-- Shallow embedding of `Orchestrator.calculate_final_mood` (lines 47-83).
The float `budget_percent` is modelled as an exact rational. -/
def calculate_final_mood (base_mood : String) (mood_hint : Int)
    (budget_percent : Option ℚ) (streak_days : Int) : String :=
  MOOD_LADDER.getD
    (if budgetOverLimit budget_percent then (0 : Int)
     else if streak_days ≥ 7 ∧ budgetAbsentOrLow budget_percent = true then 5
     else max 0 (min ((MOOD_LADDER.length : Int) - 1)
       ((ladderIndex (normalizedMood base_mood) : Int) + mood_hint))).toNat ""

/-- C1: after clamping, the overrides apply in order: a present `budgetPercent`
above 0.95 forces "frustrated" regardless of base mood, hint and streak;
otherwise a streak of at least 7 days with `budgetPercent` absent or below 0.5
forces "proud".  The budget override takes precedence. -/
theorem mood_override_order (base_mood : String) (mood_hint streak_days : Int)
    (budget_percent : Option ℚ)
    (hh : mood_hint = -1 ∨ mood_hint = 0 ∨ mood_hint = 1) :
    (∀ bp, budget_percent = some bp → bp > 95/100 →
        calculate_final_mood base_mood mood_hint budget_percent streak_days = "frustrated") ∧
    ((∀ bp, budget_percent = some bp → bp ≤ 95/100) → streak_days ≥ 7 →
      (budget_percent = none ∨ ∃ bp, budget_percent = some bp ∧ bp < 1/2) →
        calculate_final_mood base_mood mood_hint budget_percent streak_days = "proud") := by
  refine ⟨?_, ?_⟩
  · rintro bp rfl hbp
    have hover : budgetOverLimit (some bp) = true := by
      simp only [budgetOverLimit, decide_eq_true_eq]; exact hbp
    simp only [calculate_final_mood, hover, if_true]
    rfl
  · intro hle hstreak hlow
    have hover : budgetOverLimit budget_percent = false := by
      cases budget_percent with
      | none => rfl
      | some bp =>
          simp only [budgetOverLimit, decide_eq_false_iff_not, not_lt]
          exact hle bp rfl
    have hlowb : budgetAbsentOrLow budget_percent = true := by
      rcases hlow with h | ⟨bp, rfl, hbp⟩
      · rw [h]; rfl
      · simp only [budgetAbsentOrLow, decide_eq_true_eq]; exact hbp
    simp only [calculate_final_mood, hover, Bool.false_eq_true, if_false]
    rw [if_pos ⟨hstreak, hlowb⟩]
    rfl

/-- Witness for C1: with budget at 0.96 the result is "frustrated", and with
budget absent and a 9-day streak the result is "proud". -/
theorem mood_override_order_witness :
    calculate_final_mood "happy" 0 (some (96/100)) 3 = "frustrated" ∧
    calculate_final_mood "tired" (-1) none 9 = "proud" :=
  ⟨(mood_override_order "happy" 0 3 (some (96/100)) (Or.inr (Or.inl rfl))).1 (96/100) rfl
      (by norm_num),
   (mood_override_order "tired" (-1) 9 none (Or.inl rfl)).2
      (fun bp h => by cases h) (by norm_num) (Or.inl rfl)⟩

/-- C2: with no override firing, the result is the ladder entry at the clamped
index of the aliased base mood plus the hint; "disappointed" aliases to
"tired", unrecognized moods normalize to "normal", and the three concrete
examples from the spec hold. -/
theorem mood_no_override (base_mood : String) (mood_hint streak_days : Int)
    (budget_percent : Option ℚ)
    (h1 : budgetOverLimit budget_percent = false)
    (h2 : ¬ (streak_days ≥ 7 ∧ budgetAbsentOrLow budget_percent = true)) :
    calculate_final_mood base_mood mood_hint budget_percent streak_days =
      MOOD_LADDER.getD
        (max 0 (min 5 ((ladderIndex (normalizedMood base_mood) : Int) + mood_hint))).toNat "" ∧
    normalizedMood "disappointed" = "tired" ∧
    (∀ m, mood_mapping.find? (fun p => p.1 == m) = none → normalizedMood m = "normal") ∧
    calculate_final_mood "normal" 0 none 0 = "normal" ∧
    calculate_final_mood "normal" 1 none 0 = "hopeful" ∧
    calculate_final_mood "proud" 1 none 0 = "proud" := by
  refine ⟨?_, rfl, ?_, by decide, by decide, by decide⟩
  · simp only [calculate_final_mood, h1, Bool.false_eq_true, if_false, if_neg h2]
    rfl
  · intro m hm
    simp only [normalizedMood, hm]

/-- Witness for C2: a concrete no-override instance, base mood "happy" with
hint -1, budget at 0.6 and streak 2, lands on "hopeful". -/
theorem mood_no_override_witness :
    calculate_final_mood "happy" (-1) (some (6/10)) 2 =
      MOOD_LADDER.getD
        (max 0 (min 5 ((ladderIndex (normalizedMood "happy") : Int) + (-1)))).toNat "" :=
  (mood_no_override "happy" (-1) 2 (some (6/10)) (by norm_num [budgetOverLimit])
    (by norm_num [budgetAbsentOrLow])).1

/-- Exception kinds thrown by the completion provider, as the retry wrapper
sees them: a timeout (`openai.APITimeoutError`) or any other exception. -/
inductive ExcKind where
  | timeout : ExcKind
  | generic : String → ExcKind
deriving DecidableEq

/-- The retry loop of `_call_openai_json` / `_call_openai_text`
(lines 96-115 / 128-146): `remaining` counts attempts still allowed after the
current one; when the last allowed attempt fails, its exception is re-raised
unchanged. -/
def retryGo {α : Type} (provider : Nat → Except ExcKind α) : Nat → Nat → Except ExcKind α
  | attempt, 0 => provider attempt
  | attempt, r + 1 =>
    match provider attempt with
    | Except.ok a => Except.ok a
    | Except.error _ => retryGo provider (attempt + 1) r

/-- Embedding of the completion-wrapper control flow: the provider is an
oracle from attempt number to outcome; `for attempt in range(MAX_RETRIES + 1)`
makes `maxRetries + 1` attempts at most. -/
def call_with_retries {α : Type} (maxRetries : Nat) (provider : Nat → Except ExcKind α) :
    Except ExcKind α :=
  retryGo provider 0 maxRetries

/-- Default `MAX_RETRIES` from `config.Settings` (config.py line 18). -/
def MAX_RETRIES : Nat := 1

/-- The retry result only depends on the outcomes of attempts `a ≤ i ≤ a + r`. -/
theorem retryGo_congr {α : Type} (p q : Nat → Except ExcKind α) :
    ∀ r a, (∀ i, a ≤ i → i ≤ a + r → p i = q i) → retryGo p a r = retryGo q a r := by
  intro r
  induction r with
  | zero =>
      intro a h
      simp only [retryGo]
      exact h a le_rfl (by omega)
  | succ n ih =>
      intro a h
      simp only [retryGo]
      rw [h a le_rfl (by omega)]
      cases q a with
      | ok v => rfl
      | error e => exact ih (a + 1) (fun i h1 h2 => h i (by omega) (by omega))

/-- C4: the wrapper consults the provider on at most `maxRetries + 1` attempts
(the result is unchanged if the provider is modified beyond attempt index
`maxRetries`); with the default `MAX_RETRIES = 1`, fail-then-succeed returns
the success, and failure on every allowed attempt re-raises the last attempt's
exception unchanged in kind. -/
theorem retry_wrapper_behavior {α : Type} (p q : Nat → Except ExcKind α) (maxR : Nat)
    (e0 : ExcKind) (v : α) (efun : Nat → ExcKind) :
    ((∀ i, i ≤ maxR → p i = q i) → call_with_retries maxR p = call_with_retries maxR q) ∧
    (p 0 = Except.error e0 → p 1 = Except.ok v →
      call_with_retries MAX_RETRIES p = Except.ok v) ∧
    ((∀ i, i ≤ MAX_RETRIES → p i = Except.error (efun i)) →
      call_with_retries MAX_RETRIES p = Except.error (efun MAX_RETRIES)) ∧
    MAX_RETRIES = 1 := by
  refine ⟨?_, ?_, ?_, rfl⟩
  · intro h
    exact retryGo_congr p q maxR 0 (fun i h1 h2 => h i (by omega))
  · intro h0 h1
    simp only [call_with_retries, MAX_RETRIES, retryGo, h0, h1]
  · intro h
    have h0 := h 0 (by decide)
    have h1 := h 1 (by decide)
    simp only [call_with_retries, MAX_RETRIES, retryGo, h0]
    simpa using h1

/-- Witness for C4: a provider that times out on attempt 0 and succeeds on
attempt 1 yields the success; one that always times out re-raises the
timeout. -/
theorem retry_wrapper_behavior_witness :
    call_with_retries MAX_RETRIES
        (fun i => if i = 0 then Except.error ExcKind.timeout else Except.ok 42) =
      Except.ok 42 ∧
    call_with_retries MAX_RETRIES (fun _ => (Except.error ExcKind.timeout : Except ExcKind Nat)) =
      Except.error ExcKind.timeout :=
  ⟨(retry_wrapper_behavior
      (fun i => if i = 0 then Except.error ExcKind.timeout else Except.ok 42)
      (fun i => if i = 0 then Except.error ExcKind.timeout else Except.ok 42)
      1 ExcKind.timeout 42 (fun _ => ExcKind.timeout)).2.1 rfl rfl,
   (retry_wrapper_behavior (fun _ => (Except.error ExcKind.timeout : Except ExcKind Nat))
      (fun _ => (Except.error ExcKind.timeout : Except ExcKind Nat))
      1 ExcKind.timeout 0 (fun _ => ExcKind.timeout)).2.2.1 (fun i _ => rfl)⟩

/-- JSON values, as produced by `json.loads` on the LLM response text.
`null` is Python `None`. -/
inductive JVal where
  | str : String → JVal
  | num : Int → JVal
  | bool : Bool → JVal
  | null : JVal
  | arr : List JVal → JVal
  | obj : List (String × JVal) → JVal

/-- Python `dict.get(k, dflt)`: the stored value (even `None`) when the key is
present, the default only when the key is absent. -/
def dget (d : List (String × JVal)) (k : String) (dflt : JVal) : JVal :=
  match d.find? (fun p => p.1 == k) with
  | some p => p.2
  | none => dflt

/-- Python exceptions that can escape `phase_a` after the LLM response is
parsed: `TypeError` (slicing a non-sliceable value in a log argument),
`AttributeError` (`.get` on a non-dict), and Pydantic `ValidationError`. -/
inductive PyErr where
  | typeError : PyErr
  | attributeError : PyErr
  | validationError : PyErr
deriving DecidableEq

/-- The `ToolCall` Pydantic model (schemas.py lines 36-39). -/
structure ToolCallM where
  name : String
  args : List (String × JVal)

/-- The `OrchestrateResponsePhaseA` Pydantic model (schemas.py lines 149-157);
`phase` is the constant "A" and is omitted. -/
structure PhaseARespM where
  response_type : String
  tool_call : Option ToolCallM
  clarification : Option String
  direct_reply : Option String

/-- The tuple `valid_types` (orchestrator.py line 231). -/
def VALID_TYPES : List String := ["tool_call", "clarification", "direct_reply"]

/-- Default clarification text (orchestrator.py line 254). -/
def CLAR_DEFAULT : String := "No entendi tu mensaje. ¿Puedes dar mas detalles?"

/-- Default direct-reply text (orchestrator.py line 257). -/
def REPLY_DEFAULT : String := "¡Hola! ¿En que puedo ayudarte?"

/-- Lines 228-239: `data.get("response_type", "clarification")`, coerced to
"clarification" unless it is one of the three valid strings.  A non-string
value compares unequal to every element of the tuple, so it is coerced too. -/
def respType (data : List (String × JVal)) : String :=
  match dget data "response_type" (JVal.str "clarification") with
  | JVal.str s => if VALID_TYPES.contains s then s else "clarification"
  | _ => "clarification"

/-- Shallow embedding of the post-LLM part of `Orchestrator.phase_a`
(lines 228-266), given the parsed response mapping `data`.  Failure paths are
modelled from CPython/Pydantic semantics: on the tool-call branch,
`data.get("tool_call", dict()).get(...)` raises `AttributeError` when the value is
not a dict, and `ToolCall(name=..., args=...)` raises `ValidationError` when
`name` is not a string or `args` is not a dict; on the clarification and
direct-reply branches the log call at line 255/258 slices the value with
`[:50]`, which raises `TypeError` for `None`, numbers, booleans and dicts,
after which the Pydantic `Optional[str]` field rejects a list with
`ValidationError`. -/
def phase_a_post (data : List (String × JVal)) : Except PyErr PhaseARespM :=
  if respType data = "tool_call" then
    match dget data "tool_call" (JVal.obj []) with
    | JVal.obj tc =>
        match dget tc "name" (JVal.str "unknown"), dget tc "args" (JVal.obj []) with
        | JVal.str nm, JVal.obj ags =>
            Except.ok { response_type := "tool_call", tool_call := some ⟨nm, ags⟩,
                        clarification := none, direct_reply := none }
        | _, _ => Except.error PyErr.validationError
    | _ => Except.error PyErr.attributeError
  else if respType data = "clarification" then
    match dget data "clarification" (JVal.str CLAR_DEFAULT) with
    | JVal.str s =>
        Except.ok { response_type := "clarification", tool_call := none,
                    clarification := some s, direct_reply := none }
    | JVal.arr _ => Except.error PyErr.validationError
    | _ => Except.error PyErr.typeError
  else
    match dget data "direct_reply" (JVal.str REPLY_DEFAULT) with
    | JVal.str s =>
        Except.ok { response_type := "direct_reply", tool_call := none,
                    clarification := none, direct_reply := some s }
    | JVal.arr _ => Except.error PyErr.validationError
    | _ => Except.error PyErr.typeError

/-- Raw `response_type` value is missing or not one of the three valid
strings (the hypothesis of C3). -/
def rtRawInvalid (data : List (String × JVal)) : Bool :=
  match data.find? (fun p => p.1 == "response_type") with
  | none => true
  | some p =>
      match p.2 with
      | JVal.str s => ! VALID_TYPES.contains s
      | _ => true

/-- Counterexample to C3: the LLM mapping
`\x7b"response_type": "bogus", "clarification": null\x7d` makes `phase_a` raise a
`TypeError` (line 255 slices `None` with `[:50]`), so on the invalid
`response_type` path an exception can reach the caller and no non-null
clarification is produced. -/
theorem phase_a_null_clarification_raises :
    phase_a_post [("response_type", JVal.str "bogus"), ("clarification", JVal.null)] =
      Except.error PyErr.typeError := rfl

/-- C3 (amended): on an invalid or missing `response_type`, the coerced type is
"clarification", and the response carries a non-null clarification text — the
fixed default when the `clarification` key is absent, the given string when a
string is supplied; but an explicit `null` (or other non-string) value raises
instead of producing a response. -/
theorem phase_a_invalid_rt_behavior (data : List (String × JVal))
    (h : rtRawInvalid data = true) :
    respType data = "clarification" ∧
    (data.find? (fun p => p.1 == "clarification") = none →
      phase_a_post data = Except.ok
        { response_type := "clarification", tool_call := none,
          clarification := some CLAR_DEFAULT, direct_reply := none }) ∧
    (∀ s, dget data "clarification" (JVal.str CLAR_DEFAULT) = JVal.str s →
      phase_a_post data = Except.ok
        { response_type := "clarification", tool_call := none,
          clarification := some s, direct_reply := none }) ∧
    (dget data "clarification" (JVal.str CLAR_DEFAULT) = JVal.null →
      phase_a_post data = Except.error PyErr.typeError) := by
  have hrt : respType data = "clarification" := by
    unfold rtRawInvalid at h
    unfold respType dget
    split at h
    · next hf => simp only [hf]; decide
    · next p hf =>
        simp only [hf]
        split at h
        · next s hs =>
            simp only [Bool.not_eq_true'] at h
            exact if_neg (by simpa using h)
        · next hns =>
            cases hv : p.2 with
            | str s => exact ((hns s) hv).elim
            | num n => rfl
            | bool b => rfl
            | null => rfl
            | arr xs => rfl
            | obj fs => rfl
  have hne : ¬ respType data = "tool_call" := by rw [hrt]; decide
  refine ⟨hrt, ?_, ?_, ?_⟩
  · intro hmiss
    have hd : dget data "clarification" (JVal.str CLAR_DEFAULT) = JVal.str CLAR_DEFAULT := by
      unfold dget; rw [hmiss]
    unfold phase_a_post
    rw [if_neg hne, if_pos hrt, hd]
  · intro s hs
    unfold phase_a_post
    rw [if_neg hne, if_pos hrt, hs]
  · intro hnull
    unfold phase_a_post
    rw [if_neg hne, if_pos hrt, hnull]

/-- Witness for C3 (amended): a "bogus" `response_type` with no clarification
key yields the default clarification text. -/
theorem phase_a_invalid_rt_behavior_witness :
    phase_a_post [("response_type", JVal.str "bogus")] = Except.ok
      { response_type := "clarification", tool_call := none,
        clarification := some CLAR_DEFAULT, direct_reply := none } :=
  (phase_a_invalid_rt_behavior [("response_type", JVal.str "bogus")] rfl).2.1 rfl

/-- Exactly one of the three payload fields is populated and it matches the
response type. -/
def exactlyOnePayload (r : PhaseARespM) : Prop :=
  (r.response_type = "tool_call" ∧ r.tool_call ≠ none ∧ r.clarification = none ∧
    r.direct_reply = none) ∨
  (r.response_type = "clarification" ∧ r.tool_call = none ∧ r.clarification ≠ none ∧
    r.direct_reply = none) ∨
  (r.response_type = "direct_reply" ∧ r.tool_call = none ∧ r.clarification = none ∧
    r.direct_reply ≠ none)

/-- C7: whenever `phase_a` returns a response (rather than raising), exactly
one of `tool_call` / `clarification` / `direct_reply` is populated, and it is
the one named by `response_type`. -/
theorem phase_a_exactly_one_payload (data : List (String × JVal)) (r : PhaseARespM)
    (h : phase_a_post data = Except.ok r) : exactlyOnePayload r := by
  unfold phase_a_post at h
  split_ifs at h
  · split at h
    · split at h
      · cases h
        left
        refine ⟨rfl, ?_, rfl, rfl⟩
        simp
      · cases h
    · cases h
  · split at h
    · cases h
      right; left
      refine ⟨rfl, rfl, ?_, rfl⟩
      simp
    · cases h
    · cases h
  · split at h
    · cases h
      right; right
      refine ⟨rfl, rfl, rfl, ?_⟩
      simp
    · cases h
    · cases h

/-- Witness for C7: a plain direct-reply mapping populates only
`direct_reply`. -/
theorem phase_a_exactly_one_payload_witness :
    exactlyOnePayload
      { response_type := "direct_reply", tool_call := none,
        clarification := none, direct_reply := some "hola" } :=
  phase_a_exactly_one_payload
    [("response_type", JVal.str "direct_reply"), ("direct_reply", JVal.str "hola")] _ rfl

/-- Python whitespace for `str.strip()` (ASCII part). -/
def isPySpace (c : Char) : Bool :=
  c = ' ' || c = '\t' || c = '\n' || c = '\r' || c = '\x0b' || c = '\x0c'

/-- Python `str.strip()` on a character list. -/
def pyStripL (l : List Char) : List Char :=
  ((l.dropWhile isPySpace).reverse.dropWhile isPySpace).reverse

/-- Python `str.lower()` restricted to ASCII plus the Spanish letters that
occur in the orchestrator's string vocabulary. -/
def pyToLower (c : Char) : Char :=
  if c = 'Á' then 'á' else if c = 'É' then 'é' else if c = 'Í' then 'í'
  else if c = 'Ó' then 'ó' else if c = 'Ú' then 'ú' else if c = 'Ñ' then 'ñ'
  else if c = 'Ü' then 'ü' else c.toLower

/-- Word characters for the regex `\w` (Unicode mode), restricted to ASCII
alphanumerics, underscore and the Spanish letters used here. -/
def pyIsWordChar (c : Char) : Bool :=
  c.isAlphanum || c = '_' || c = 'á' || c = 'é' || c = 'í' || c = 'ó' || c = 'ú' ||
    c = 'ñ' || c = 'ü'

/-- Python substring containment `needle in haystack`. -/
def containsSub (needle : List Char) : List Char → Bool
  | [] => needle.isEmpty
  | c :: rest => needle.isPrefixOf (c :: rest) || containsSub needle rest

/-- The fixed opener vocabulary (orchestrator.py line 455). -/
def KNOWN_OPENINGS : List String :=
  ["listo", "anotado", "hecho", "ya quedó", "perfecto", "ok", "buena", "dale"]

/-- The fallback branch of `_extract_opening` (lines 463-466): the regex
`^(\w+)[,\.!]` greedily takes the maximal run of word characters; since none
of `,`/`.`/`!` is a word character, backtracking cannot produce any other
match, so the regex matches exactly when the character right after the run is
one of the three punctuation marks, and the word is then tested for exact
membership in the opener list. -/
def firstWordMatch (normalized : List Char) : Option String :=
  let w := normalized.takeWhile pyIsWordChar
  match normalized.drop w.length with
  | c :: _ =>
      if w ≠ [] ∧ (c = ',' ∨ c = '.' ∨ c = '!') ∧ KNOWN_OPENINGS.contains (String.mk w)
      then some (String.mk w) else none
  | [] => none

/-- Shallow embedding of `Orchestrator._extract_opening` (lines 453-468).
`normalized.startswith(opening)` is prefix comparison on the characters of
`response.lower().strip()`; the loop returns the first opener that is a raw
character prefix. -/
def _extract_opening (response : String) : Option String :=
  match KNOWN_OPENINGS.find?
      (fun o => o.data.isPrefixOf (pyStripL (response.data.map pyToLower))) with
  | some o => some o
  | none => firstWordMatch (pyStripL (response.data.map pyToLower))

/-- C10: opener matching is raw prefix matching on the lowercased trimmed
reply, tested in list order with no word-boundary check — a reply starting
with "okey" yields "ok" and one starting with "buenas tardes" yields "buena";
only when no opener is a prefix is the first word before `,`/`.`/`!` checked
for exact membership. -/
theorem extract_opening_behavior (response : String) :
    ((∃ o ∈ KNOWN_OPENINGS,
        o.data.isPrefixOf (pyStripL (response.data.map pyToLower)) = true) →
      _extract_opening response =
        KNOWN_OPENINGS.find?
          (fun o => o.data.isPrefixOf (pyStripL (response.data.map pyToLower)))) ∧
    (KNOWN_OPENINGS.find?
        (fun o => o.data.isPrefixOf (pyStripL (response.data.map pyToLower))) = none →
      _extract_opening response = firstWordMatch (pyStripL (response.data.map pyToLower))) ∧
    _extract_opening "okey, ya lo anoté" = some "ok" ∧
    _extract_opening "buenas tardes" = some "buena" ∧
    _extract_opening "Listo, anoté tu gasto." = some "listo" ∧
    _extract_opening "No puedo ayudarte con eso." = none := by
  refine ⟨?_, ?_, by decide, by decide, by decide, by decide⟩
  · rintro ⟨o, ho, hpre⟩
    unfold _extract_opening
    cases hf : KNOWN_OPENINGS.find?
        (fun o => o.data.isPrefixOf (pyStripL (response.data.map pyToLower))) with
    | some o2 => simp only [hf]
    | none =>
        rw [List.find?_eq_none] at hf
        exact absurd hpre (by simpa using hf o ho)
  · intro hf
    unfold _extract_opening
    simp only [hf]

/-- Witness for C10: the spec example "Listo, anoté tu gasto." goes through
the prefix branch. -/
theorem extract_opening_behavior_witness :
    _extract_opening "Listo, anoté tu gasto." =
      KNOWN_OPENINGS.find?
        (fun o => o.data.isPrefixOf
          (pyStripL (("Listo, anoté tu gasto." : String).data.map pyToLower))) :=
  (extract_opening_behavior "Listo, anoté tu gasto.").1 ⟨"listo", by decide, by decide⟩

/-- Budget keyword list for nudge detection (orchestrator.py line 419). -/
def BUDGET_WORDS : List String := ["presupuesto", "gastado", "límite", "cuidado"]

/-- Streak keyword list for nudge detection (orchestrator.py line 423). -/
def STREAK_WORDS : List String := ["racha", "días seguidos", "constante"]

/-- Python truthiness of the `budget_percent` float (line 418): `None` and
`0.0` are falsy. -/
def budgetTruthy (budget_percent : Option ℚ) : Bool :=
  match budget_percent with
  | none => false
  | some b => decide (¬ b = 0)

/-- Condition `budget_percent > 0.9` (line 418). -/
def budgetOver09 (budget_percent : Option ℚ) : Bool :=
  match budget_percent with
  | none => false
  | some b => decide (b > 9/10)

/-- Nudge detection heuristics (lines 414-425), returning
`(did_nudge, nudge_type)`. -/
def nudgePair (lower_msg : List Char) (can_nudge can_budget_warning : Bool)
    (budget_percent : Option ℚ) (streak_days : Int) : Bool × Option String :=
  if can_nudge || can_budget_warning then
    if can_budget_warning && budgetTruthy budget_percent && budgetOver09 budget_percent then
      if BUDGET_WORDS.any (fun w => containsSub w.data lower_msg) then (true, some "budget")
      else (false, none)
    else if can_nudge then
      if decide (streak_days ≥ 3) && STREAK_WORDS.any (fun w => containsSub w.data lower_msg)
      then (true, some "streak")
      else (false, none)
    else (false, none)
  else (false, none)

/-- The deterministic Phase B output fields derived from the provider
completion text (`OrchestrateResponsePhaseB` minus the summary, plus the
extracted opening). -/
structure PhaseBOutM where
  final_message : String
  did_nudge : Bool
  nudge_type : Option String
  new_opening : Option String

/-- Deterministic post-processing of `Orchestrator.phase_b` after the
completion call (lines 404-451 together with line 136):
`final_message = (completion.choices[0].message.content or "").strip()`, then
opening extraction and nudge detection on it. -/
def phase_b_post (completion_content : Option String) (can_nudge can_budget_warning : Bool)
    (budget_percent : Option ℚ) (streak_days : Int) : PhaseBOutM :=
  { final_message := String.mk (pyStripL (completion_content.getD "").data)
    did_nudge := (nudgePair ((pyStripL (completion_content.getD "").data).map pyToLower)
      can_nudge can_budget_warning budget_percent streak_days).1
    nudge_type := (nudgePair ((pyStripL (completion_content.getD "").data).map pyToLower)
      can_nudge can_budget_warning budget_percent streak_days).2
    new_opening := _extract_opening (String.mk (pyStripL (completion_content.getD "").data)) }

/-- Counterexample to C8: an empty provider completion text produces an empty
`final_message`, so `finalMessage` is not a non-empty string for every
provider completion text. -/
theorem phase_b_empty_completion_empty_message :
    (phase_b_post (some "") true true none 0).final_message = "" := rfl

theorem dropWhile_nil_all (p : Char → Bool) :
    ∀ l : List Char, l.dropWhile p = [] → ∀ c ∈ l, p c = true := by
  intro l
  induction l with
  | nil => intro _ c hc; cases hc
  | cons a as ih =>
      intro h c hc
      rw [List.dropWhile_cons] at h
      split at h
      · next hpa =>
          cases hc with
          | head => exact hpa
          | tail _ hc2 => exact ih h c hc2
      · cases h

theorem all_dropWhile_nil (p : Char → Bool) :
    ∀ l : List Char, (∀ c ∈ l, p c = true) → l.dropWhile p = [] := by
  intro l
  induction l with
  | nil => intro _; rfl
  | cons a as ih =>
      intro h
      rw [List.dropWhile_cons, if_pos (h a (List.mem_cons_self a as))]
      exact ih (fun c hc => h c (List.mem_cons_of_mem a hc))

/-- The Python strip of a string is empty exactly when every character is
whitespace. -/
theorem pyStripL_eq_nil_iff (l : List Char) :
    pyStripL l = [] ↔ ∀ c ∈ l, isPySpace c = true := by
  unfold pyStripL
  rw [List.reverse_eq_nil_iff]
  constructor
  · intro h c hc
    have hall : ∀ c ∈ (l.dropWhile isPySpace).reverse, isPySpace c = true :=
      dropWhile_nil_all isPySpace _ h
    have hl := List.takeWhile_append_dropWhile (p := isPySpace) (l := l)
    rw [← hl] at hc
    rcases List.mem_append.mp hc with hc | hc
    · exact List.mem_takeWhile_imp hc
    · exact hall c (List.mem_reverse.mpr hc)
  · intro h
    rw [all_dropWhile_nil isPySpace l h]
    rfl

/-- C8 (amended): `final_message` is exactly the provider completion text
stripped of surrounding whitespace, and it is non-empty if and only if the
completion text contains some non-whitespace character. -/
theorem phase_b_final_message_is_strip (t : String) (cn cb : Bool)
    (bp : Option ℚ) (sd : Int) :
    (phase_b_post (some t) cn cb bp sd).final_message = String.mk (pyStripL t.data) ∧
    ((phase_b_post (some t) cn cb bp sd).final_message ≠ "" ↔
      ∃ c ∈ t.data, isPySpace c = false) := by
  refine ⟨rfl, ?_⟩
  show ¬ String.mk (pyStripL t.data) = "" ↔ _
  rw [show ("" : String) = String.mk [] from rfl]
  constructor
  · intro h
    by_contra hno
    push_neg at hno
    exact h (congrArg String.mk ((pyStripL_eq_nil_iff t.data).mpr
      (fun c hc => by
        have := hno c hc
        cases hb : isPySpace c with
        | true => rfl
        | false => exact absurd hb this)))
  · rintro ⟨c, hc, hcs⟩ h
    have hnil : pyStripL t.data = [] := by
      injection h
    have := (pyStripL_eq_nil_iff t.data).mp hnil c hc
    rw [this] at hcs
    cases hcs

/-- Characters matched by the regex class `[0-9,.]` (ASCII digits, comma,
dot). -/
def isAmountChar (c : Char) : Bool := c.isDigit || c = ',' || c = '.'

/-- Strip a literal pattern from the front of a character list, or fail. -/
def stripPfx : List Char → List Char → Option (List Char)
  | [], cs => some cs
  | _ :: _, [] => none
  | p :: ps, c :: cs => if c = p then stripPfx ps cs else none

/-- One match of the regex `Registró \$([0-9,.]+) en ([^.]+)\.` anchored at
the start of `cs` (orchestrator.py line 517).  The match is deterministic:
each greedy run is over a character class disjoint from the literal that must
follow it (`[0-9,.]` contains no space, `[^.]` contains no dot), so
backtracking can never produce a different match.  Returns
`(group0, group1, group2)`. -/
def matchTxAt (cs : List Char) : Option (List Char × List Char × List Char) :=
  match stripPfx ("Registró $".data) cs with
  | none => none
  | some rest1 =>
      let amt := rest1.takeWhile isAmountChar
      if amt.isEmpty then none
      else
        match stripPfx (" en ".data) (rest1.drop amt.length) with
        | none => none
        | some rest3 =>
            let cat := rest3.takeWhile (fun c => !(c == '.'))
            if cat.isEmpty then none
            else
              match rest3.drop cat.length with
              | '.' :: _ =>
                  some ("Registró $".data ++ amt ++ " en ".data ++ cat ++ ['.'], amt, cat)
              | _ => none

/-- A regex match object: start offset, end offset, and groups 0-2. -/
structure TxMatch where
  mstart : Nat
  mstop : Nat
  group0 : List Char
  group1 : List Char
  group2 : List Char
deriving DecidableEq

/-- Fuelled scanner implementing `re.finditer`: leftmost matches, scanning
resumes after the end of each match (non-overlapping). -/
def findTxAux : Nat → List Char → Nat → List TxMatch
  | 0, _, _ => []
  | _ + 1, [], _ => []
  | fuel + 1, c :: cs, pos =>
      match matchTxAt (c :: cs) with
      | some (g0, g1, g2) =>
          ⟨pos, pos + g0.length, g0, g1, g2⟩ ::
            findTxAux fuel ((c :: cs).drop g0.length) (pos + g0.length)
      | none => findTxAux fuel cs (pos + 1)

/-- `list(re.finditer(individual_pattern, summary))` (line 518). -/
def findTx (s : List Char) : List TxMatch := findTxAux s.length s 0

/-- Decimal value of a digit string. -/
def digitsToNat (ds : List Char) : Nat :=
  ds.foldl (fun a c => a * 10 + (c.toNat - '0'.toNat)) 0

/-- `float(amount_str) if amount_str else 0` after
`amount_str = m.group(1).replace(".", "").replace(",", "")` (lines 527-528).
The cleaned string consists of decimal digits only, so the float is an exact
nonnegative integer, modelled as `Nat`. -/
def amountValue (amt : List Char) : Nat :=
  let cleaned := amt.filter (fun c => !(c == '.') && !(c == ','))
  if cleaned.isEmpty then 0 else digitsToNat cleaned

/-- Grouping key `m.group(2).strip().lower()` (lines 529-530). -/
def keyOf (m : TxMatch) : List Char := (pyStripL m.group2).map pyToLower

/-- Append an entry to its key's group, preserving first-occurrence order of
keys (Python `defaultdict` over an insertion-ordered dict). -/
def insertGrp (acc : List (List Char × List (TxMatch × Nat))) (k : List Char)
    (e : TxMatch × Nat) : List (List Char × List (TxMatch × Nat)) :=
  match acc with
  | [] => [(k, [e])]
  | (k2, es) :: rest =>
      if k2 = k then (k2, es ++ [e]) :: rest else (k2, es) :: insertGrp rest k e

/-- `category_groups` (lines 524-530): matches paired with their parsed
amounts, grouped by case-insensitive stripped category. -/
def categoryGroups (s : List Char) : List (List Char × List (TxMatch × Nat)) :=
  ((findTx s).map (fun m => (m, amountValue m.group1))).foldl
    (fun acc e => insertGrp acc (keyOf e.1) e) []

/-- Stable insertion into a list sorted by match start (Python `sorted` with
`key=lambda x: x[0].start()` is stable). -/
def insSorted (e : TxMatch × Nat) : List (TxMatch × Nat) → List (TxMatch × Nat)
  | [] => [e]
  | x :: xs => if x.1.mstart ≤ e.1.mstart then x :: insSorted e xs else e :: x :: xs

/-- The flattened `(m, amount)` pairs of all groups, sorted by match start
(lines 549-552). -/
def sortedEntries (groups : List (List Char × List (TxMatch × Nat))) :
    List (TxMatch × Nat) :=
  ((groups.map (fun g => g.2)).flatten).foldl (fun acc e => insSorted e acc) []

/-- Gap extraction (lines 547-559): stripped text between consecutive matches
and after the last one, skipping empty gaps. -/
def nonTxParts (s : List Char) : List TxMatch → Nat → List (List Char)
  | [], lastEnd =>
      let t := pyStripL (s.drop lastEnd)
      if t.isEmpty then [] else [t]
  | m :: ms, lastEnd =>
      let before := pyStripL ((s.drop lastEnd).take (m.mstart - lastEnd))
      if before.isEmpty then nonTxParts s ms m.mstop
      else before :: nonTxParts s ms m.mstop

/-- Decimal digit characters of `n`, most significant first (fuelled). -/
def digitChars : Nat → Nat → List Char
  | 0, _ => []
  | fuel + 1, n =>
      if n < 10 then [Nat.digitChar n]
      else digitChars fuel (n / 10) ++ [Nat.digitChar (n % 10)]

/-- Decimal representation of a natural number. -/
def natRepr (n : Nat) : List Char := digitChars (n + 1) n

/-- Insert a comma after every three characters of a reversed digit string. -/
def commaRev : List Char → List Char
  | a :: b :: c :: d :: rest => a :: b :: c :: ',' :: commaRev (d :: rest)
  | ds => ds

/-- Python format spec `,.0f` applied to an exact integer float: decimal
digits grouped in threes by commas, no fractional part. -/
def commaFmt (n : Nat) : List Char := (commaRev (natRepr n).reverse).reverse

/-- Sum of the parsed amounts of a group's entries (line 566). -/
def sumAmounts (es : List (TxMatch × Nat)) : Nat := (es.map (fun e => e.2)).sum

/-- The aggregated sentence
`f"Registró (count) gastos en (category_name) ($(total:,.0f) total)."`
of line 568. -/
def aggSentence (count : Nat) (catName : List Char) (total : Nat) : List Char :=
  "Registró ".data ++ natRepr count ++ " gastos en ".data ++ catName ++
    " ($".data ++ commaFmt total ++ " total).".data

/-- `result_parts` entry for one category group (lines 562-572): groups with
two or more entries become one aggregated sentence (display name is the first
entry's stripped original-casing category), single-entry groups keep their
original matched sentence `group(0)`. -/
def sentenceFor (g : List Char × List (TxMatch × Nat)) : List Char :=
  match g.2 with
  | [] => []
  | e0 :: rest =>
      if rest.isEmpty then e0.1.group0
      else aggSentence g.2.length (pyStripL e0.1.group2) (sumAmounts g.2)

/-- `" ".join(p for p in all_parts if p)` (line 576). -/
def joinSpace : List (List Char) → List Char
  | [] => []
  | [p] => p
  | p :: ps => p ++ ' ' :: joinSpace ps

/-- Some category has at least two entries (lines 533-537). -/
def hasCompression (groups : List (List Char × List (TxMatch × Nat))) : Bool :=
  groups.any (fun g => decide (2 ≤ g.2.length))

/-- Shallow embedding of `Orchestrator._compress_summary` (lines 508-576). -/
def compressL (s : List Char) : List Char :=
  if (findTx s).length < 2 then s
  else if !(hasCompression (categoryGroups s)) then s
  else
    joinSpace
      (((nonTxParts s ((sortedEntries (categoryGroups s)).map (fun e => e.1)) 0) ++
        (categoryGroups s).map sentenceFor).filter (fun p => !p.isEmpty))

/-- String-level wrapper of the compressor. -/
def _compress_summary (s : String) : String := String.mk (compressL s.data)

theorem insertGrp_sumLen (k : List Char) (e : TxMatch × Nat) :
    ∀ acc, (((insertGrp acc k e).map (fun g => g.2.length)).sum) =
      (((acc.map (fun g => g.2.length)).sum)) + 1 := by
  intro acc
  induction acc with
  | nil => rfl
  | cons hd tl ih =>
      rcases hd with ⟨k2, es⟩
      unfold insertGrp
      by_cases hk : k2 = k
      · rw [if_pos hk]
        simp [List.length_append]
        omega
      · rw [if_neg hk]
        simp only [List.map_cons, List.sum_cons, ih]
        omega

theorem foldl_insertGrp_sumLen (ms : List (TxMatch × Nat)) :
    ∀ acc, (((ms.foldl (fun acc e => insertGrp acc (keyOf e.1) e) acc).map
        (fun g => g.2.length)).sum) =
      (((acc.map (fun g => g.2.length)).sum)) + ms.length := by
  induction ms with
  | nil => intro acc; simp
  | cons e rest ih =>
      intro acc
      simp only [List.foldl_cons, List.length_cons]
      rw [ih (insertGrp acc (keyOf e.1) e), insertGrp_sumLen]
      omega

theorem mem_le_sumLen (g : List Char × List (TxMatch × Nat)) :
    ∀ groups : List (List Char × List (TxMatch × Nat)), g ∈ groups →
      g.2.length ≤ ((groups.map (fun x => x.2.length)).sum) := by
  intro groups
  induction groups with
  | nil => intro h; cases h
  | cons hd tl ih =>
      intro h
      simp only [List.map_cons, List.sum_cons]
      cases h with
      | head => omega
      | tail _ h2 => have := ih h2; omega

/-- A category with at least two entries forces at least two matches. -/
theorem hasCompression_two_matches (s : List Char)
    (h : hasCompression (categoryGroups s) = true) : 2 ≤ (findTx s).length := by
  rcases List.any_eq_true.mp h with ⟨g, hg, hg2⟩
  have h2 : 2 ≤ g.2.length := of_decide_eq_true hg2
  have hle := mem_le_sumLen g (categoryGroups s) hg
  have hsum : (((categoryGroups s).map (fun x => x.2.length)).sum) = (findTx s).length := by
    unfold categoryGroups
    rw [foldl_insertGrp_sumLen]
    simp
  omega

/-- C5: when some category (keyed case-insensitively) has at least two
matched transaction sentences, the compressed summary is the space-join of
the stripped non-matching spans (in original order, placed before the
transaction sentences) followed by one sentence per category in
first-occurrence order; a category with two or more entries becomes a single
aggregated sentence with its entry count and amount sum, a single-entry
category keeps its original matched sentence; in particular the spec's
example compresses to one sentence totalling $23,000. -/
theorem compress_structure (l : List Char)
    (h : hasCompression (categoryGroups l) = true) :
    compressL l =
      joinSpace
        (((nonTxParts l ((sortedEntries (categoryGroups l)).map (fun e => e.1)) 0) ++
          (categoryGroups l).map sentenceFor).filter (fun p => !p.isEmpty)) ∧
    (∀ g ∈ categoryGroups l, ∀ e0 rest, g.2 = e0 :: rest →
      (rest = [] → sentenceFor g = e0.1.group0) ∧
      (rest ≠ [] → sentenceFor g =
        aggSentence (rest.length + 1) (pyStripL e0.1.group2) (sumAmounts (e0 :: rest)))) ∧
    _compress_summary "Registró $15,000 en Comida. Registró $8,000 en Comida." =
      "Registró 2 gastos en Comida ($23,000 total)." := by
  refine ⟨?_, ?_, by decide⟩
  · have h2 := hasCompression_two_matches l h
    unfold compressL
    rw [if_neg (by omega), if_neg (by rw [h]; exact (by decide))]
  · intro g hg e0 rest hg2
    constructor
    · intro hrest
      unfold sentenceFor
      rw [hg2, hrest]
      rfl
    · intro hrest
      unfold sentenceFor
      rw [hg2]
      simp only [List.isEmpty_eq_true]
      rw [if_neg hrest]
      simp [List.length_cons]

/-- Witness for C5: the spec example has a doubly-occurring category, and the
structural equation holds for it. -/
theorem compress_structure_witness :
    compressL ("Registró $15,000 en Comida. Registró $8,000 en Comida." : String).data =
      joinSpace
        (((nonTxParts ("Registró $15,000 en Comida. Registró $8,000 en Comida." : String).data
            ((sortedEntries (categoryGroups
              ("Registró $15,000 en Comida. Registró $8,000 en Comida." : String).data)).map
                (fun e => e.1)) 0) ++
          (categoryGroups
            ("Registró $15,000 en Comida. Registró $8,000 en Comida." : String).data).map
              sentenceFor).filter (fun p => !p.isEmpty)) :=
  (compress_structure ("Registró $15,000 en Comida. Registró $8,000 en Comida." : String).data
    (by decide)).1

/-- A summary whose compression is changed again by a second compression: the
kept single-entry category "Z Registró $7 en Q" and the trailing dangling
fragment "Registró $1 en Z" recombine in the compressor's output into two
fresh matches of the same category, so the second pass merges them. -/
def nonIdemEx : String :=
  "Registró $7 en Q. Registró $3 en Z Registró $7 en Q. Registró $5 en A. Registró $6 en A. Registró $1 en Z"

/-- Counterexample to C6: the compressor is not idempotent; on `nonIdemEx`
the second compression differs from the first. -/
theorem compress_not_idempotent :
    ¬ _compress_summary (_compress_summary nonIdemEx) = _compress_summary nonIdemEx := by
  decide

/-- C6 (amended): the compressor is idempotent on its fixed points — in
particular every summary with fewer than two pattern matches or no repeated
category, which it returns unchanged — and recompressing the compressed spec
example returns it unchanged; unrestricted idempotence fails when a category
name or trailing text itself embeds the transaction pattern. -/
theorem compress_idempotent_on_fixed_points (s : String)
    (h : _compress_summary s = s) :
    _compress_summary (_compress_summary s) = _compress_summary s ∧
    _compress_summary (_compress_summary
        "Registró $15,000 en Comida. Registró $8,000 en Comida.") =
      _compress_summary "Registró $15,000 en Comida. Registró $8,000 en Comida." :=
  ⟨by rw [h, h], by decide⟩

/-- Witness for C6 (amended): a summary with no matches is a fixed point. -/
theorem compress_idempotent_on_fixed_points_witness :
    _compress_summary (_compress_summary "hola como estas") =
      _compress_summary "hola como estas" :=
  (compress_idempotent_on_fixed_points "hola como estas" rfl).1

theorem amountChar_filter (c : Char) (h : isAmountChar c = true) :
    (!(c == '.') && !(c == ',')) = c.isDigit := by
  by_cases h1 : c = '.'
  · subst h1; rfl
  · by_cases h2 : c = ','
    · subst h2; rfl
    · have hne1 : (c == '.') = false := by simp [h1]
      have hne2 : (c == ',') = false := by simp [h2]
      unfold isAmountChar at h
      simp only [Bool.or_eq_true, decide_eq_true_eq] at h
      have hd : c.isDigit = true := by tauto
      rw [hne1, hne2, hd]
      rfl

/-- C9: every matched amount contributes the integer formed by its digits
alone — both separators `.` and `,` are deleted before numeric conversion —
so "$10.50" is counted as 1050, and in the full pipeline
"$10.50" and "$1" in the same category total 1,051. -/
theorem amount_parse_drops_separators (amt : List Char)
    (h : ∀ c ∈ amt, isAmountChar c = true) :
    amountValue amt =
      (if (amt.filter Char.isDigit).isEmpty then 0
       else digitsToNat (amt.filter Char.isDigit)) ∧
    amountValue ("10.50" : String).data = 1050 ∧
    _compress_summary "Registró $10.50 en X. Registró $1 en X." =
      "Registró 2 gastos en X ($1,051 total)." := by
  refine ⟨?_, by decide, by decide⟩
  have hfilter : amt.filter (fun c => !(c == '.') && !(c == ',')) = amt.filter Char.isDigit :=
    List.filter_congr (fun c hc => amountChar_filter c (h c hc))
  unfold amountValue
  rw [hfilter]

/-- Witness for C9: the amount string "10.50" satisfies the character-class
hypothesis and parses to its digits 1050. -/
theorem amount_parse_drops_separators_witness :
    amountValue ("10.50" : String).data =
      (if ((("10.50" : String).data).filter Char.isDigit).isEmpty then 0
       else digitsToNat ((("10.50" : String).data).filter Char.isDigit)) :=
  (amount_parse_drops_separators ("10.50" : String).data (by decide)).1

end Tally
